import Mathlib

/-!
# Verification of eclipse-bot core components

Shallow embedding of the eclipse-bot repository's core modules and proofs
about them:

* `src/core/compactor.py` — `AutoCompactor.invoke` / `_generate_summary`
* `src/core/slack_streamer.py` — `SlackStreamer.handle_token`,
  `_flush_buffer`, `stop`
* `src/core/checkpointer.py` — `CustomSqliteSaver._setup`, `put`,
  `get_tuple`, `aput`, `aget_tuple`
* `src/core/dispatcher.py` — `handle_event_trigger` (error path)

Python exceptions are modelled with `Except`; external calls (the LLM, the
Slack transport) are parameters so that both their success and failure
behaviours can be examined.  Machine-level details that the claims do not
touch (event-loop scheduling, wall-clock time, SQLite file formats) are
abstracted as stated in each definition's comment.
-/

namespace EclipseBot

/-! ## Messages (langchain_core.messages)

`AutoCompactor` only distinguishes `SystemMessage` from everything else
(`isinstance(m, SystemMessage)`); the `type` tag is used when rendering the
conversation for the summariser.  We model the three roles that appear in
the repository's flows. -/

inductive Role where
  | system
  | human
  | ai
deriving DecidableEq, Repr

/-- Python `m.type` in langchain: the lowercase role tag of a message. -/
def Role.tag : Role → String
  | .system => "system"
  | .human => "human"
  | .ai => "ai"

/-- A chat message: role plus string content (`m.content`). -/
structure Message where
  role : Role
  content : String
deriving DecidableEq, Repr

/-- Predicate `isinstance(m, SystemMessage)` from `compactor.py`. -/
def isSystemMsg (m : Message) : Bool := m.role == Role.system

/-! ## Python list slices

`compactor.py` uses `non_system[:-recent_buffer]` and
`non_system[-recent_buffer:]`.  Python's negative slices degenerate at
`k = 0`: `xs[:-0]` is `[]` and `xs[-0:]` is the whole list, so the two
helpers below carry that case explicitly. -/

/-- Python `xs[:-k]`. -/
def sliceDropLast (xs : List α) (k : Nat) : List α :=
  if k = 0 then [] else xs.take (xs.length - k)

/-- Python `xs[-k:]`. -/
def sliceTakeLast (xs : List α) (k : Nat) : List α :=
  if k = 0 then xs else xs.drop (xs.length - k)

/-! ## AutoCompactor (`src/core/compactor.py`)

The compactor's two external calls are carried as fields:

* `getNumTokens` — `self.model.get_num_tokens_from_messages(messages)`,
  which the code calls inside `try/except` (a raise is `Except.error`);
* `modelInvoke` — `self.model.invoke([HumanMessage(content=prompt)])`
  followed by `.content`, i.e. the LLM call made by `_generate_summary`.

The Slack-notification block inside `invoke` is wrapped in its own
`try/except` and only schedules a message send; it does not affect the
return value and is omitted here, as is the `logger`-only block that
recounts tokens after compaction (`try: ... except: pass`). -/

structure AutoCompactor where
  getNumTokens : List Message → Except Unit Nat
  modelInvoke : String → Except Unit String
  maxTokens : Nat
  recentBuffer : Nat

/-- The fallback estimate in `invoke`:
`sum(len(m.content) for m in messages) // 4` — the total character count
over all messages, integer-divided by 4 once. -/
def fallbackTokenCount (msgs : List Message) : Nat :=
  (msgs.map (fun m => m.content.length)).sum / 4

/-- Local `current_tokens` as computed at the top of `invoke`: the model's own
counter, falling back to `fallbackTokenCount` if that call raises. -/
def currentTokenCount (c : AutoCompactor) (msgs : List Message) : Nat :=
  match c.getNumTokens msgs with
  | .ok n => n
  | .error _ => fallbackTokenCount msgs

/-- The conversation rendering loop of `_generate_summary`:
`conversation_text += f"{m.type.upper()}: {m.content}\n"`. -/
def conversationText (msgs : List Message) : String :=
  msgs.foldl (fun acc m => acc ++ m.role.tag.toUpper ++ ": " ++ m.content ++ "\n") ""

/-- The prompt string built by `_generate_summary`. -/
def summaryPrompt (msgs : List Message) : String :=
  "Summarize the following technical conversation concisely.\n" ++
  "Key Requirements:\n" ++
  "1. **Preserve file paths and directories**: Explicitly list all visited directories and modified files.\n" ++
  "2. Preserve function names and specific technical decisions.\n" ++
  "3. Note any finished tasks and pending TODOs.\n" ++
  "4. Ignore casual chitchat.\n\n" ++
  "Conversation:\n" ++ conversationText msgs

/-- Method `_generate_summary`: build the prompt and call the model; the model
call may raise, and `_generate_summary` itself has no handler, so the
error propagates to `invoke`'s outer `except`. -/
def generateSummary (c : AutoCompactor) (msgs : List Message) : Except Unit String :=
  c.modelInvoke (summaryPrompt msgs)

/-- The `SystemMessage` wrapping the summary text in `invoke` (step 4). -/
def summaryMessage (text : String) : Message :=
  { role := Role.system
    content := " [PREVIOUS CONVERSATION SUMMARY]\nThe following is a condensed summary of the earlier conversation. Use this context to understand past decisions:\n\n" ++ text }

/-- List `system_msgs = [m for m in messages if isinstance(m, SystemMessage)]`. -/
def systemOf (messages : List Message) : List Message :=
  messages.filter isSystemMsg

/-- List `non_system = [m for m in messages if not isinstance(m, SystemMessage)]`. -/
def nonSystemOf (messages : List Message) : List Message :=
  messages.filter (fun m => !isSystemMsg m)

/-- Method `AutoCompactor.invoke`.  The outer `try/except Exception` returns the
original `messages` whenever an unhandled exception occurs inside; in this
embedding the only unhandled exception source is the summarisation call
(`generateSummary`), since the token-counter call has its own inner
handler and the remaining operations are total.  The Python locals
`system_msgs`, `non_system`, `to_summarize`, `recent` appear here as the
applied helper definitions. -/
def AutoCompactor.invoke (c : AutoCompactor) (messages : List Message) : List Message :=
  if currentTokenCount c messages < c.maxTokens then messages
  else if (nonSystemOf messages).length ≤ c.recentBuffer then messages
  else
    match generateSummary c (sliceDropLast (nonSystemOf messages) c.recentBuffer) with
    | .error _ => messages
    | .ok summaryText =>
      systemOf messages ++ [summaryMessage summaryText] ++
        sliceTakeLast (nonSystemOf messages) c.recentBuffer

/-! ## SlackStreamer (`src/core/slack_streamer.py`)

Buffers and flushes are modelled over `List Char` (a Python `str` is a
sequence of code points, as is `String.data`).  Wall-clock throttling
(`time.time() - last_update_time > throttle_interval`) is external state,
so `handle_token` takes the outcome of that comparison as the boolean
`throttleOpen`; likewise the transport call `streamer.append` is
represented by `streamerBound` (is `self.streamer` set?) and `appendOk`
(did the awaited append raise?).  The status-channel calls
(`set_assistant_status`) are not transcribed: the claims are about the
transport's `append` primitive only. -/

/-- Python `\s` on the ASCII range (`re` whitespace and `str.strip`). -/
def pyIsSpace (c : Char) : Bool :=
  c = ' ' || c = '\t' || c = '\n' || c = '\r' || c = '\x0b' || c = '\x0c'

/-- Leading-whitespace removal (`\s*` munching at the current position). -/
def dropSpaces (s : List Char) : List Char := s.dropWhile pyIsSpace

/-- Python `str.strip()`: drop whitespace from both ends. -/
def pyStrip (s : List Char) : List Char :=
  ((s.dropWhile pyIsSpace).reverse.dropWhile pyIsSpace).reverse

/-- Python `str.lower()` (ASCII case folding; the marker is ASCII). -/
def lowerChars (s : List Char) : List Char := s.map Char.toLower

/-- The reasoning marker `"thought:"` as a character list. -/
def thoughtMarker : List Char := "thought:".data

/-- Case-insensitive match of the literal `thought:` at the head of `s`;
returns the rest on success. -/
def stripMarkerCI (s : List Char) : Option (List Char) :=
  if lowerChars (s.take 8) = thoughtMarker then some (s.drop 8) else none

/-- One maximal match of `(\s*thought:\s*)+` starting at the current
position: munch `\s*`, require `thought:` (case-insensitively), munch the
trailing `\s*`, and repeat while another `thought:` follows.  `\s*` may
cross newlines, exactly as in the Python pattern.  The fuel argument only
bounds the recursion; each successful round consumes at least the
8-character marker, so `s.length + 1` rounds always suffice. -/
def munchGroupsAux : Nat → List Char → Option (List Char)
  | 0, _ => none
  | fuel + 1, s =>
    match stripMarkerCI (dropSpaces s) with
    | none => none
    | some rest =>
      let rest' := dropSpaces rest
      match munchGroupsAux fuel rest' with
      | some r => some r
      | none => some rest'

def munchGroups (s : List Char) : Option (List Char) :=
  munchGroupsAux (s.length + 1) s

/-- Substitution `re.sub(r'(?im)^(\s*thought:\s*)+', '', buffer)`: at every line start
(string start, or the position after each `\n`), remove a maximal
`(\s*thought:\s*)+` match if one begins there; all other text is copied
verbatim.  Fuel as above: each round emits at least one character or ends
the string. -/
def stripThoughtAux : Nat → List Char → List Char
  | 0, s => s
  | fuel + 1, s =>
    let s' := (munchGroups s).getD s
    let line := s'.takeWhile (fun c => c ≠ '\n')
    match s'.dropWhile (fun c => c ≠ '\n') with
    | [] => line
    | _ :: tail => line ++ '\n' :: stripThoughtAux fuel tail

def stripThought (s : List Char) : List Char :=
  stripThoughtAux (s.length + 1) s

/-- The hold-back loop of `_flush_buffer`: `for i in range(1, len(target))`
checks whether the lower-cased buffer ends with `target[:i]` for
`i = 1 .. 7` (proper non-empty prefixes of `"thought:"`). -/
def endsWithPartialMarker (buf : List Char) : Bool :=
  (List.range 7).any (fun i => (thoughtMarker.take (i + 1)).isSuffixOf (lowerChars buf))

/-- Observable state of a `SlackStreamer`: the pending buffer, the
`response_started` flag, and the transcript of texts passed to the
transport's `append` primitive (`self.streamer.append(markdown_text=...)`),
in call order. -/
structure StreamerState where
  buffer : List Char
  responseStarted : Bool
  sent : List (List Char)
deriving DecidableEq, Repr

/-- The freshly constructed streamer: empty buffer, `response_started`
false, nothing sent. -/
def initStreamer : StreamerState :=
  { buffer := [], responseStarted := false, sent := [] }

/-- Method `SlackStreamer._flush_buffer`.  The `try` block covers the regex
cleaning, the append and the buffer clear; a raise from the transport
append is caught (`except Exception: logger.warning(...)`), leaving the
buffer and transcript untouched — modelled by the `appendOk = false`
branch.  When `self.streamer` is unset the append is skipped but the
buffer is still cleared. -/
def flushBuffer (appendOk streamerBound : Bool) (s : StreamerState) : StreamerState :=
  if s.buffer = [] then s
  else if endsWithPartialMarker s.buffer then s
  else if stripThought s.buffer = [] then s
  else if streamerBound && !appendOk then s
  else { s with
          sent := s.sent ++ (if streamerBound then [stripThought s.buffer] else [])
          buffer := [] }

/-- Method `SlackStreamer.handle_token`: empty-content fast exit, the one-time
first-real-content check (`response_started`), buffer append, and the
throttled flush attempt.  The status-clearing side effect of the first
check touches only the status channel and is not transcribed. -/
def handleToken (throttleOpen appendOk streamerBound : Bool)
    (content : List Char) (s : StreamerState) : StreamerState :=
  if content = [] then s
  else
    let s₁ :=
      if !s.responseStarted && !(pyStrip content).isEmpty &&
         !(thoughtMarker.isPrefixOf (pyStrip (lowerChars (s.buffer ++ content)))) then
        { s with responseStarted := true }
      else s
    let s₂ := { s₁ with buffer := s₁.buffer ++ content }
    if throttleOpen then flushBuffer appendOk streamerBound s₂ else s₂

/-- Push a sequence of tokens with a flush attempted after each one
(throttle window open every time), against a bound transport whose appends
succeed. -/
def pushTokensFlushing (tokens : List (List Char)) (s : StreamerState) : StreamerState :=
  tokens.foldl (fun st t => handleToken true true true t st) s

/-- Method `SlackStreamer.stop`.  The final flush (`re.sub` + `.strip()` + append)
runs with **no** surrounding `try/except`, so a raise from the transport
append propagates to `stop`'s caller — modelled as `Except.error ()`.  The
subsequent `set_assistant_status` and `streamer.stop()` calls are modelled
as succeeding; only the append's fallibility is in scope here. -/
def stopStreamer (appendOk streamerBound : Bool) (s : StreamerState) :
    Except Unit StreamerState :=
  if s.buffer = [] then Except.ok s
  else if pyStrip (stripThought s.buffer) = [] then Except.ok s
  else if streamerBound then
    if appendOk then
      Except.ok { s with sent := s.sent ++ [pyStrip (stripThought s.buffer)] }
    else Except.error ()
  else Except.ok s

/-! ## CustomSqliteSaver (`src/core/checkpointer.py`)

The `checkpoints` table created by `_setup` has
`PRIMARY KEY (thread_id, thread_ts)`; `put` writes with
`INSERT OR REPLACE`, which deletes any row with the same primary key and
inserts the new one.  The store is modelled as a list of rows (SQLite's
row order is immaterial to the queries used: equality filters and a
`MAX(thread_ts)` selection).  `pickle.dumps`/`pickle.loads` round-trip a
value unchanged, so blobs are carried as the values themselves. -/

/-- The checkpoint dictionary as `put`/`get_tuple` use it: the `"id"` key
(the revision id stored into `thread_ts`), the
`"channel_values"["messages"]` list read by the load-time hook, and the
rest of the dict, opaque to this module. -/
structure CheckpointData where
  id : String
  messages : List Message
  rest : String
deriving DecidableEq, Repr

/-- Dict `config["configurable"]`: the thread id plus the optional
`thread_ts`. -/
structure SaverConfig where
  threadId : String
  threadTs : Option String
deriving DecidableEq, Repr

/-- One row of the `checkpoints` table. -/
structure CheckpointRow where
  threadId : String
  threadTs : String
  parentTs : Option String
  checkpoint : CheckpointData
  metadata : String
deriving DecidableEq, Repr

/-- Primary-key equality test for a row against `(thread_id, thread_ts)`. -/
def rowKeyIs (tid ts : String) (r : CheckpointRow) : Bool :=
  r.threadId == tid && r.threadTs == ts

/-- SQLite `INSERT OR REPLACE` under `PRIMARY KEY (thread_id, thread_ts)`:
drop any row with the new row's key, add the new row. -/
def insertOrReplace (r : CheckpointRow) (rows : List CheckpointRow) : List CheckpointRow :=
  rows.filter (fun q => !rowKeyIs r.threadId r.threadTs q) ++ [r]

/-- Method `CustomSqliteSaver.put`: key the row by
`(config.thread_id, checkpoint["id"])`, store the caller's `thread_ts` as
`parent_ts`, upsert, and return the updated `configurable` dict. -/
def put (rows : List CheckpointRow) (config : SaverConfig)
    (checkpoint : CheckpointData) (metadata : String) :
    List CheckpointRow × SaverConfig :=
  let row : CheckpointRow :=
    { threadId := config.threadId
      threadTs := checkpoint.id
      parentTs := config.threadTs
      checkpoint := checkpoint
      metadata := metadata }
  (insertOrReplace row rows, { threadId := config.threadId, threadTs := some checkpoint.id })

/-- Structure `CheckpointTuple` as built by `get_tuple`: config, (possibly reduced)
checkpoint, metadata, and the parent pair `(thread_id, parent_ts)` when
`parent_ts` is truthy (Python: `if row[2]` — `None` and `""` both fail). -/
structure SavedTuple where
  config : SaverConfig
  checkpoint : CheckpointData
  metadata : String
  parent : Option (String × String)
deriving DecidableEq, Repr

/-- Row selection in `get_tuple`: with a `thread_ts`, the exact-key query;
without one, `ORDER BY thread_ts DESC LIMIT 1` over the thread's rows
(TEXT ordering, i.e. lexicographic maximum; on a duplicate maximum SQLite's
pick is unspecified and the scan keeps the first). -/
def selectRow (rows : List CheckpointRow) (tid : String) (ts? : Option String) :
    Option CheckpointRow :=
  match ts? with
  | some ts => (rows.filter (rowKeyIs tid ts)).head?
  | none =>
    (rows.filter (fun r => r.threadId == tid)).foldl
      (fun best r =>
        match best with
        | none => some r
        | some b => if b.threadTs < r.threadTs then some r else some b)
      none

/-- The load-time context-management hook of `get_tuple`: when a
`context_manager` is installed, replace `checkpoint["channel_values"]
["messages"]` with `context_manager.invoke(...)` of it.  The surrounding
`try/except: pass` falls back to the original checkpoint if the hook
raises; the hook is carried here as a total function on messages. -/
def applyContextHook (hook : Option (List Message → List Message))
    (cp : CheckpointData) : CheckpointData :=
  match hook with
  | none => cp
  | some f => { cp with messages := f cp.messages }

/-- Method `CustomSqliteSaver.get_tuple`: select the row, apply the load-time
hook, and assemble the tuple (parent only when `parent_ts` is truthy). -/
def getTuple (hook : Option (List Message → List Message))
    (rows : List CheckpointRow) (config : SaverConfig) : Option SavedTuple :=
  match selectRow rows config.threadId config.threadTs with
  | none => none
  | some r =>
    some
      { config := config
        checkpoint := applyContextHook hook r.checkpoint
        metadata := r.metadata
        parent :=
          match r.parentTs with
          | some p => if p = "" then none else some (config.threadId, p)
          | none => none }

/-- A Python runtime error, as far as this module can raise one. -/
inductive PyErr where
  | nameError (name : String)
deriving DecidableEq, Repr

/-- Method `CustomSqliteSaver.aget_tuple`: it does `import asyncio` (function-local) and
`await asyncio.to_thread(self.get_tuple, config)` — the blocking
implementation runs on a worker and its result (or exception) is
forwarded unchanged, so the observable outcome is exactly `get_tuple`. -/
def agetTuple (hook : Option (List Message → List Message))
    (rows : List CheckpointRow) (config : SaverConfig) :
    Except PyErr (Option SavedTuple) :=
  Except.ok (getTuple hook rows config)

/-- Method `CustomSqliteSaver.aput`: its body is
`return await asyncio.to_thread(self.put, ...)`, but unlike `aget_tuple`
and `alist` the function contains no `import asyncio`, and the module has
no top-level `import asyncio` either (its imports are `pickle`, `sqlite3`,
`typing`, `contextlib`, and the langchain/langgraph names).  Evaluating the
name `asyncio` therefore raises `NameError: name 'asyncio' is not defined`
before `put` is ever reached: no row is written and no config returned. -/
def aput (_rows : List CheckpointRow) (_config : SaverConfig)
    (_checkpoint : CheckpointData) (_metadata : String) :
    Except PyErr (List CheckpointRow × SaverConfig) :=
  Except.error (PyErr.nameError "asyncio")

/-- The primary key of a row, as declared by `_setup`:
`PRIMARY KEY (thread_id, thread_ts)`. -/
def rowKey (r : CheckpointRow) : String × String := (r.threadId, r.threadTs)

/-- The table's primary-key invariant: no two rows share
`(thread_id, thread_ts)`. -/
def keysNodup (rows : List CheckpointRow) : Prop := (rows.map rowKey).Nodup

/-! ## Dispatcher error path (`src/core/dispatcher.py`)

`handle_event_trigger` sets an initial assistant status, runs the agent
stream (abstracted below into its outcome), and on any exception from that
`try` block builds `error_text` and sends it to the UI anchor —
`update_message(channel, msg_ts, ...)` when the triggering message has a
`ts`, else `send_message(channel, ..., thread_ts=thread_ts)`.  That send is
the last statement of the handler and is **not** wrapped in any
`try/except` of its own. -/

/-- A user-visible Slack call made by the dispatcher. -/
inductive SlackCall where
  | setStatus (channel anchor : String)
  | updateMsg (channel ts text : String)
  | sendMsg (channel text : String) (threadTs : Option String)
deriving DecidableEq, Repr

/-- String `error_text` as formatted in the `except` branch. -/
def dispatcherErrorText (e : String) : String :=
  "❌ 에이전트 실행 중 오류가 발생했습니다: " ++ e

/-- Handler `handle_event_trigger`, with the streaming body abstracted:
`agentOutcome` is either the list of user-visible calls the successful
stream produced or the exception message that escaped the inner `try`
(the `finally` cleanup only touches the status channel and stream handle);
`errorSend` is the outcome of the one transport call made inside the
`except` branch.  The returned transcript starts with the initial
`set_assistant_status` call; an `Except.error` result is an exception
escaping `handle_event_trigger` itself. -/
def handleEventTrigger (channel : String) (msgTs threadTs : Option String)
    (agentOutcome : Except String (List SlackCall))
    (errorSend : Except Unit Unit) : Except Unit (List SlackCall) :=
  let statusAnchor := threadTs.getD (msgTs.getD "")
  let initCalls := [SlackCall.setStatus channel statusAnchor]
  match agentOutcome with
  | .ok calls => Except.ok (initCalls ++ calls)
  | .error e =>
    let text := dispatcherErrorText e
    match errorSend with
    | .error u => Except.error u
    | .ok _ =>
      Except.ok (initCalls ++
        [match msgTs with
         | some ts => SlackCall.updateMsg channel ts text
         | none => SlackCall.sendMsg channel text threadTs])

/-! ## Definitions used only to state claims

These two definitions translate wording of the specification, not code of
the repository; they exist solely to be compared against the embedded
code above. -/

/-- Modelled from the spec (§5 step 1 as read by claim C9): the fallback
token estimate as "`len(content) // 4` per message, summed" — the
per-message integer quotient, summed.  For comparison with
`fallbackTokenCount` only. -/
def perMessageQuotientSum (msgs : List Message) : Nat :=
  (msgs.map (fun m => m.content.length / 4)).sum

/-- Modelled from the spec (§5 steps 2–5 as read by claim C6): partition
`messages` into the *leading contiguous run* of system messages and the
remainder (later system messages stay in the remainder), summarize the
remainder minus the recent buffer, and reassemble.  For comparison with
`AutoCompactor.invoke` only. -/
def reduceLeadingRun (c : AutoCompactor) (messages : List Message) : List Message :=
  if currentTokenCount c messages < c.maxTokens then messages
  else
    let leading := messages.takeWhile isSystemMsg
    let remainder := messages.dropWhile isSystemMsg
    if remainder.length ≤ c.recentBuffer then messages
    else
      match generateSummary c (sliceDropLast remainder c.recentBuffer) with
      | .error _ => messages
      | .ok summaryText =>
        leading ++ [summaryMessage summaryText] ++ sliceTakeLast remainder c.recentBuffer

/-! ## Concrete instances used by counterexamples and witnesses -/

/-- A compactor whose model-native token counter always raises; the
summariser succeeds with the constant text "SUM". -/
def measureFailCompactor : AutoCompactor :=
  { getNumTokens := fun _ => Except.error ()
    modelInvoke := fun _ => Except.ok "SUM"
    maxTokens := 1
    recentBuffer := 1 }

/-- A compactor whose token counter succeeds (returning 100) but whose
summarisation call raises. -/
def summaryFailCompactor : AutoCompactor :=
  { getNumTokens := fun _ => Except.ok 100
    modelInvoke := fun _ => Except.error ()
    maxTokens := 1
    recentBuffer := 1 }

/-- A compactor for which both external calls succeed. -/
def workingCompactor : AutoCompactor :=
  { getNumTokens := fun _ => Except.ok 100
    modelInvoke := fun _ => Except.ok "SUM"
    maxTokens := 1
    recentBuffer := 1 }

def pairHumanMsgs : List Message :=
  [{ role := Role.human, content := "aaaa" }, { role := Role.human, content := "bbbb" }]

def shortPairMsgs : List Message :=
  [{ role := Role.human, content := "ab" }, { role := Role.human, content := "cd" }]

/-- A streamer state with pending, marker-free buffered text and a bound
transport stream. -/
def pendingStreamer : StreamerState :=
  { buffer := "Hi.".data, responseStarted := true, sent := [] }

/-- A history whose only system message sits *after* a non-system
message, so it is not part of the leading contiguous run. -/
def lateSystemMsgs : List Message :=
  [{ role := Role.human, content := "aaaa" },
   { role := Role.system, content := "sys-late" },
   { role := Role.human, content := "bbbb" },
   { role := Role.human, content := "cccc" }]

/-! ## Helper lemmas -/

lemma length_filter_partition (p : α → Bool) (l : List α) :
    (l.filter p).length + (l.filter (fun a => !p a)).length = l.length := by
  induction l with
  | nil => simp
  | cons a t ih => by_cases h : p a <;> simp [List.filter_cons, h] <;> omega

lemma mem_sliceTakeLast {xs : List α} {k : Nat} {a : α}
    (h : a ∈ sliceTakeLast xs k) : a ∈ xs := by
  unfold sliceTakeLast at h
  split at h
  · exact h
  · exact List.drop_subset _ _ h

lemma length_sliceTakeLast {xs : List α} {k : Nat} (hk : k ≠ 0)
    (hle : k ≤ xs.length) : (sliceTakeLast xs k).length = k := by
  unfold sliceTakeLast
  rw [if_neg hk, List.length_drop]
  omega

lemma sliceTakeLast_sliceTakeLast (xs : List α) (k : Nat) :
    sliceTakeLast (sliceTakeLast xs k) k = sliceTakeLast xs k := by
  by_cases hk : k = 0
  · simp [sliceTakeLast, hk]
  · unfold sliceTakeLast
    rw [if_neg hk, if_neg hk]
    have h : (xs.drop (xs.length - k)).length - k = 0 := by
      rw [List.length_drop]; omega
    rw [h, List.drop_zero]

lemma nonSystemOf_append (l₁ l₂ : List Message) :
    nonSystemOf (l₁ ++ l₂) = nonSystemOf l₁ ++ nonSystemOf l₂ :=
  List.filter_append _ _

lemma nonSystemOf_systemOf (l : List Message) : nonSystemOf (systemOf l) = [] := by
  unfold nonSystemOf systemOf
  rw [List.filter_filter]
  simp

lemma nonSystemOf_summaryMessage (t : String) :
    nonSystemOf [summaryMessage t] = [] := rfl

lemma nonSystemOf_of_all {l : List Message}
    (h : ∀ a ∈ l, isSystemMsg a = false) : nonSystemOf l = l :=
  List.filter_eq_self.mpr (fun a ha => by rw [h a ha]; rfl)

lemma nonSystemOf_sliceTakeLast (l : List Message) (k : Nat) :
    nonSystemOf (sliceTakeLast (nonSystemOf l) k) = sliceTakeLast (nonSystemOf l) k := by
  apply nonSystemOf_of_all
  intro a ha
  have hmem : a ∈ nonSystemOf l := mem_sliceTakeLast ha
  have hp := (List.mem_filter.mp hmem).2
  revert hp
  cases isSystemMsg a <;> simp

/-- The compaction branch of `invoke`, as one equation. -/
lemma invoke_eq_compacted (c : AutoCompactor) (msgs : List Message) (t : String)
    (h1 : ¬ currentTokenCount c msgs < c.maxTokens)
    (h2 : ¬ (nonSystemOf msgs).length ≤ c.recentBuffer)
    (h3 : generateSummary c (sliceDropLast (nonSystemOf msgs) c.recentBuffer) =
      Except.ok t) :
    c.invoke msgs =
      systemOf msgs ++ [summaryMessage t] ++
        sliceTakeLast (nonSystemOf msgs) c.recentBuffer := by
  simp [AutoCompactor.invoke, h1, h2, h3]

/-- The fail-open branch of `invoke`: an error from the summarisation call
reaches the outer handler, which returns the input. -/
lemma invoke_eq_orig_of_summary_error (c : AutoCompactor) (msgs : List Message)
    (h3 : generateSummary c (sliceDropLast (nonSystemOf msgs) c.recentBuffer) =
      Except.error ()) :
    c.invoke msgs = msgs := by
  by_cases h1 : currentTokenCount c msgs < c.maxTokens
  · simp [AutoCompactor.invoke, h1]
  · by_cases h2 : (nonSystemOf msgs).length ≤ c.recentBuffer
    · simp [AutoCompactor.invoke, h1, h2]
    · simp [AutoCompactor.invoke, h1, h2, h3]

/-- When the transport append raises (`appendOk = false`) against a bound
stream, every branch of `_flush_buffer` leaves the state untouched: the
exception is caught and the buffer survives for the next window. -/
lemma flushBuffer_append_failed (s : StreamerState) : flushBuffer false true s = s := by
  unfold flushBuffer
  repeat' split <;> first | rfl | simp_all

lemma rowKeyIs_self (r : CheckpointRow) : rowKeyIs r.threadId r.threadTs r = true := by
  simp [rowKeyIs]

lemma rowKeyIs_iff (tid ts : String) (q : CheckpointRow) :
    rowKeyIs tid ts q = true ↔ rowKey q = (tid, ts) := by
  simp [rowKeyIs, rowKey]

/-- After an `INSERT OR REPLACE`, the rows carrying the inserted key are
exactly the inserted row. -/
lemma filter_insertOrReplace (r : CheckpointRow) (rows : List CheckpointRow) :
    (insertOrReplace r rows).filter (rowKeyIs r.threadId r.threadTs) = [r] := by
  unfold insertOrReplace
  rw [List.filter_append, List.filter_filter]
  simp [rowKeyIs_self]

/-- Statement `INSERT OR REPLACE` preserves primary-key uniqueness. -/
lemma keysNodup_insertOrReplace (r : CheckpointRow) (rows : List CheckpointRow)
    (h : keysNodup rows) : keysNodup (insertOrReplace r rows) := by
  unfold keysNodup insertOrReplace at *
  rw [List.map_append, List.nodup_append]
  refine ⟨((List.filter_sublist rows).map rowKey).nodup h, by simp, ?_⟩
  intro a ha hb
  simp only [List.map_cons, List.map_nil, List.mem_singleton] at hb
  rcases List.mem_map.mp ha with ⟨q, hq, hkey⟩
  have hfil := (List.mem_filter.mp hq).2
  have hkeyq : rowKeyIs r.threadId r.threadTs q = true := by
    rw [rowKeyIs_iff, hkey, hb]
    rfl
  simp [hkeyq] at hfil

/-! ## Claim C2 — fail-open compaction -/

/-- Claim C2, counterexample: the claim says that an exception in *any*
step of measurement makes `invoke` return the original sequence, but when
the model-native token counter raises, `invoke` recovers with the
character-count fallback and still compacts: here the counter raises for
`pairHumanMsgs` and the result is not the original sequence. -/
theorem c2_counterexample_measurement_error_still_compacts :
    measureFailCompactor.getNumTokens pairHumanMsgs = Except.error ()
    ∧ measureFailCompactor.invoke pairHumanMsgs ≠ pairHumanMsgs :=
  ⟨rfl, by decide⟩

/-- Claim C2 (amended): if the summarisation call raises, `invoke`
returns the original `messages` unmodified — same length, elements and
order; an exception from the token counter alone is recovered internally
by the fallback estimate and does not force the original to be
returned. -/
theorem c2_fail_open_on_summary_error (c : AutoCompactor) (msgs : List Message)
    (h : generateSummary c (sliceDropLast (nonSystemOf msgs) c.recentBuffer) =
      Except.error ()) :
    c.invoke msgs = msgs :=
  invoke_eq_orig_of_summary_error c msgs h

/-- Witness for `c2_fail_open_on_summary_error` at a concrete compactor
whose summarisation call raises. -/
theorem c2_fail_open_witness :
    generateSummary summaryFailCompactor
        (sliceDropLast (nonSystemOf pairHumanMsgs) summaryFailCompactor.recentBuffer) =
      Except.error ()
    ∧ summaryFailCompactor.invoke pairHumanMsgs = pairHumanMsgs :=
  ⟨rfl, c2_fail_open_on_summary_error summaryFailCompactor pairHumanMsgs rfl⟩

/-! ## Claim C3 — summary invariant -/

/-- Claim C3: for any messages at or above the budget threshold with more
non-system messages than `recent_buffer`, the reduced sequence's last
`recent_buffer` non-system entries equal (element-wise, in order) the
input's last `recent_buffer` non-system entries. -/
theorem c3_recent_non_system_preserved (c : AutoCompactor) (msgs : List Message)
    (h1 : c.maxTokens ≤ currentTokenCount c msgs)
    (h2 : c.recentBuffer < (nonSystemOf msgs).length) :
    sliceTakeLast (nonSystemOf (c.invoke msgs)) c.recentBuffer
      = sliceTakeLast (nonSystemOf msgs) c.recentBuffer := by
  have h1' : ¬ currentTokenCount c msgs < c.maxTokens := not_lt.mpr h1
  have h2' : ¬ (nonSystemOf msgs).length ≤ c.recentBuffer := not_le.mpr h2
  cases hgen : generateSummary c (sliceDropLast (nonSystemOf msgs) c.recentBuffer) with
  | error e =>
    cases e
    rw [invoke_eq_orig_of_summary_error c msgs hgen]
  | ok t =>
    rw [invoke_eq_compacted c msgs t h1' h2' hgen,
        nonSystemOf_append, nonSystemOf_append, nonSystemOf_systemOf,
        nonSystemOf_summaryMessage, nonSystemOf_sliceTakeLast]
    simp [sliceTakeLast_sliceTakeLast]

/-- Witness for `c3_recent_non_system_preserved` on a concrete
over-budget history. -/
theorem c3_witness :
    workingCompactor.maxTokens ≤ currentTokenCount workingCompactor lateSystemMsgs
    ∧ workingCompactor.recentBuffer < (nonSystemOf lateSystemMsgs).length
    ∧ sliceTakeLast (nonSystemOf (workingCompactor.invoke lateSystemMsgs))
        workingCompactor.recentBuffer
        = sliceTakeLast (nonSystemOf lateSystemMsgs) workingCompactor.recentBuffer :=
  ⟨by decide, by decide,
    c3_recent_non_system_preserved workingCompactor lateSystemMsgs (by decide) (by decide)⟩

/-! ## Claim C6 — compaction partition and reassembly -/

/-- Claim C6, counterexample: `invoke` does *not* keep only the leading
contiguous run of system messages — it hoists every system message.  On
`lateSystemMsgs` (leading run empty, one system message after a human
message) the code's result differs from the spec's partition/reassembly
(`reduceLeadingRun`), and the hoisted late system message heads the
output. -/
theorem c6_counterexample_late_system_hoisted :
    workingCompactor.invoke lateSystemMsgs
      ≠ reduceLeadingRun workingCompactor lateSystemMsgs
    ∧ (workingCompactor.invoke lateSystemMsgs).head?
      = some { role := Role.system, content := "sys-late" } := by
  decide

/-- Claim C6 (amended): on the compaction path `invoke` keeps verbatim
*all* system-role messages in their original relative order (a system
message occurring after a non-system message is hoisted into the kept
block), and returns `all_system ++ [summary_message] ++ kept_recent` in
that order. -/
theorem c6_all_system_hoisted (c : AutoCompactor) (msgs : List Message) (t : String)
    (h1 : c.maxTokens ≤ currentTokenCount c msgs)
    (h2 : c.recentBuffer < (nonSystemOf msgs).length)
    (h3 : generateSummary c (sliceDropLast (nonSystemOf msgs) c.recentBuffer) =
      Except.ok t) :
    c.invoke msgs =
      systemOf msgs ++ [summaryMessage t] ++
        sliceTakeLast (nonSystemOf msgs) c.recentBuffer :=
  invoke_eq_compacted c msgs t (not_lt.mpr h1) (not_le.mpr h2) h3

/-- Witness for `c6_all_system_hoisted` on a concrete history. -/
theorem c6_witness :
    generateSummary workingCompactor
        (sliceDropLast (nonSystemOf lateSystemMsgs) workingCompactor.recentBuffer) =
      Except.ok "SUM"
    ∧ workingCompactor.invoke lateSystemMsgs =
        systemOf lateSystemMsgs ++ [summaryMessage "SUM"] ++
          sliceTakeLast (nonSystemOf lateSystemMsgs) workingCompactor.recentBuffer :=
  ⟨rfl, c6_all_system_hoisted workingCompactor lateSystemMsgs "SUM"
    (by decide) (by decide) rfl⟩

/-! ## Claim C9 — fallback token estimate -/

/-- Claim C9, counterexample: with the counter raising, the estimate the
code uses for `shortPairMsgs` (contents of length 2 and 2) is
`(2 + 2) / 4 = 1`, whereas the claimed per-message quotient sum is
`2/4 + 2/4 = 0`. -/
theorem c9_counterexample_per_message_quotient :
    measureFailCompactor.getNumTokens shortPairMsgs = Except.error ()
    ∧ currentTokenCount measureFailCompactor shortPairMsgs = 1
    ∧ perMessageQuotientSum shortPairMsgs = 0 :=
  ⟨rfl, by decide, by decide⟩

/-- Claim C9 (amended): when the model-native counter raises, the token
estimate used by the threshold check is the *total* content length summed
over all messages, integer-divided by 4 once; in particular `invoke`
takes its no-op fast path exactly when that total quotient is below
`max_tokens`. -/
theorem c9_fallback_total_quotient (c : AutoCompactor) (msgs : List Message)
    (h : c.getNumTokens msgs = Except.error ()) :
    currentTokenCount c msgs = (msgs.map (fun m => m.content.length)).sum / 4
    ∧ ((msgs.map (fun m => m.content.length)).sum / 4 < c.maxTokens →
        c.invoke msgs = msgs) := by
  have hcur : currentTokenCount c msgs =
      (msgs.map (fun m => m.content.length)).sum / 4 := by
    unfold currentTokenCount
    rw [h]
    rfl
  refine ⟨hcur, fun hlt => ?_⟩
  have hfast : currentTokenCount c msgs < c.maxTokens := by rw [hcur]; exact hlt
  simp [AutoCompactor.invoke, hfast]

/-- Witness for `c9_fallback_total_quotient` at a concrete failing
counter. -/
theorem c9_witness :
    measureFailCompactor.getNumTokens shortPairMsgs = Except.error ()
    ∧ currentTokenCount measureFailCompactor shortPairMsgs
        = (shortPairMsgs.map (fun m => m.content.length)).sum / 4 :=
  ⟨rfl, (c9_fallback_total_quotient measureFailCompactor shortPairMsgs rfl).1⟩

/-! ## Claim C10 — reduce never lengthens -/

/-- Claim C10: with `recent_buffer ≥ 1`, `invoke` never returns a longer
sequence than its input, on every path. -/
theorem c10_invoke_never_lengthens (c : AutoCompactor) (msgs : List Message)
    (h : 1 ≤ c.recentBuffer) : (c.invoke msgs).length ≤ msgs.length := by
  by_cases h1 : currentTokenCount c msgs < c.maxTokens
  · simp [AutoCompactor.invoke, h1]
  · by_cases h2 : (nonSystemOf msgs).length ≤ c.recentBuffer
    · simp [AutoCompactor.invoke, h1, h2]
    · cases hgen : generateSummary c
          (sliceDropLast (nonSystemOf msgs) c.recentBuffer) with
      | error e =>
        cases e
        rw [invoke_eq_orig_of_summary_error c msgs hgen]
      | ok t =>
        rw [invoke_eq_compacted c msgs t h1 h2 hgen]
        have hpart : (systemOf msgs).length + (nonSystemOf msgs).length
            = msgs.length := length_filter_partition isSystemMsg msgs
        have hrec : (sliceTakeLast (nonSystemOf msgs) c.recentBuffer).length
            = c.recentBuffer :=
          length_sliceTakeLast (by omega) (by omega)
        simp only [List.length_append, List.length_singleton]
        omega

/-- Witness for `c10_invoke_never_lengthens` on a concrete compactor with
`recent_buffer = 1`. -/
theorem c10_witness :
    1 ≤ workingCompactor.recentBuffer
    ∧ (workingCompactor.invoke lateSystemMsgs).length ≤ lateSystemMsgs.length :=
  ⟨by decide, c10_invoke_never_lengthens workingCompactor lateSystemMsgs (by decide)⟩

/-! ## Claim C1 — reasoning suppression -/

/-- Claim C1, counterexample: pushing `["thou", "ght: internal\n",
"Real answer."]` with a flush attempted after each token, against a bound
stream whose appends succeed, does *not* yield exactly one flush of
`"Real answer."` — the flush transcript differs, and the reasoning-segment
text `"internal\n"` (the content after the stripped `thought:` marker)
reaches the transport's append primitive. -/
theorem c1_counterexample_reasoning_content_sent :
    (pushTokensFlushing ["thou".data, "ght: internal\n".data, "Real answer.".data]
        initStreamer).sent ≠ ["Real answer.".data]
    ∧ "internal\n".data ∈
        (pushTokensFlushing ["thou".data, "ght: internal\n".data, "Real answer.".data]
          initStreamer).sent := by
  decide

/-- Claim C1 (amended): the same token sequence yields exactly two
user-visible flushes, `"internal\n"` then `"Real answer."` — the
`thought:` marker text itself is stripped and never sent, but the
remainder of the reasoning line after the marker is sent. -/
theorem c1_amended_two_flushes :
    (pushTokensFlushing ["thou".data, "ght: internal\n".data, "Real answer.".data]
        initStreamer).sent = ["internal\n".data, "Real answer.".data] := by
  decide

/-! ## Claim C7 — flush failure semantics -/

/-- Claim C7, counterexample: `stop()` *does* raise when its final
flush's transport append fails — the final append in `stop` has no
surrounding `try/except`. -/
theorem c7_counterexample_stop_raises :
    stopStreamer false true
      { buffer := "Hello.".data, responseStarted := true, sent := [] }
      = Except.error () := by
  rfl

/-- Claim C7 (amended): if the transport append raises during a throttled
flush, the pending buffer is not cleared, nothing is recorded as sent,
and the error does not propagate (`flushBuffer` returns a state, not an
exception); however `stop()` *propagates* a transport error from its own
final flush whenever there is pending cleaned text and a bound stream. -/
theorem c7_flush_failure_and_stop_raises (s : StreamerState) :
    ((flushBuffer false true s).buffer = s.buffer
      ∧ (flushBuffer false true s).sent = s.sent)
    ∧ (s.buffer ≠ [] → pyStrip (stripThought s.buffer) ≠ [] →
        stopStreamer false true s = Except.error ()) := by
  refine ⟨?_, fun h1 h2 => ?_⟩
  · rw [flushBuffer_append_failed]
    exact ⟨rfl, rfl⟩
  · unfold stopStreamer
    rw [if_neg h1, if_neg h2]
    rfl

/-- Witness for `c7_flush_failure_and_stop_raises` on a concrete pending
state. -/
theorem c7_witness :
    pendingStreamer.buffer ≠ []
    ∧ pyStrip (stripThought pendingStreamer.buffer) ≠ []
    ∧ ((flushBuffer false true pendingStreamer).buffer = pendingStreamer.buffer
        ∧ (flushBuffer false true pendingStreamer).sent = pendingStreamer.sent)
    ∧ stopStreamer false true pendingStreamer = Except.error () :=
  ⟨by decide, by decide, (c7_flush_failure_and_stop_raises pendingStreamer).1,
    (c7_flush_failure_and_stop_raises pendingStreamer).2 (by decide) (by decide)⟩

/-! ## Claim C4 — checkpoint upsert -/

/-- Claim C4: two `put`s with the same `(thread_id, revision_id)` leave
exactly one row for that key, carrying the second write's checkpoint and
metadata; and every `put` preserves the key-uniqueness invariant. -/
theorem c4_put_upsert (rows : List CheckpointRow) (cfg₁ cfg₂ : SaverConfig)
    (cp₁ cp₂ : CheckpointData) (md₁ md₂ : String)
    (hTid : cfg₁.threadId = cfg₂.threadId) (hRev : cp₁.id = cp₂.id) :
    ((put (put rows cfg₁ cp₁ md₁).1 cfg₂ cp₂ md₂).1.filter
        (rowKeyIs cfg₁.threadId cp₁.id)
      = [{ threadId := cfg₂.threadId, threadTs := cp₂.id,
           parentTs := cfg₂.threadTs, checkpoint := cp₂, metadata := md₂ }])
    ∧ (keysNodup rows → keysNodup (put (put rows cfg₁ cp₁ md₁).1 cfg₂ cp₂ md₂).1) := by
  constructor
  · rw [hTid, hRev]
    exact filter_insertOrReplace
      { threadId := cfg₂.threadId, threadTs := cp₂.id,
        parentTs := cfg₂.threadTs, checkpoint := cp₂, metadata := md₂ }
      (put rows cfg₁ cp₁ md₁).1
  · intro h
    exact keysNodup_insertOrReplace _ _ (keysNodup_insertOrReplace _ _ h)

/-- Witness for `c4_put_upsert`: two concrete saves of revision `"r"` on
thread `"T"`. -/
theorem c4_witness :
    ((put (put ([] : List CheckpointRow)
          { threadId := "T", threadTs := none }
          { id := "r", messages := [], rest := "d1" } "m1").1
        { threadId := "T", threadTs := some "p" }
        { id := "r", messages := [], rest := "d2" } "m2").1.filter
        (rowKeyIs "T" "r")
      = [{ threadId := "T", threadTs := "r", parentTs := some "p",
           checkpoint := { id := "r", messages := [], rest := "d2" },
           metadata := "m2" }])
    ∧ keysNodup (put (put ([] : List CheckpointRow)
          { threadId := "T", threadTs := none }
          { id := "r", messages := [], rest := "d1" } "m1").1
        { threadId := "T", threadTs := some "p" }
        { id := "r", messages := [], rest := "d2" } "m2").1 := by
  have h := c4_put_upsert [] { threadId := "T", threadTs := none }
    { threadId := "T", threadTs := some "p" }
    { id := "r", messages := [], rest := "d1" }
    { id := "r", messages := [], rest := "d2" } "m1" "m2" rfl rfl
  exact ⟨h.1, h.2 (by simp [keysNodup])⟩

/-! ## Claim C5 — async/sync equivalence -/

/-- Claim C5, divergence theorem: the blocking `put` stores the row (and
the synchronous `get_tuple` is exactly what `aget_tuple` offloads), but
`aput` raises `NameError: name 'asyncio' is not defined` on every input —
its body references `asyncio` and the module never imports it at top
level (only `aget_tuple` and `alist` import it function-locally) — so the
asynchronous form never reaches storage and adds a failure mode the
blocking form does not have. -/
theorem c5_aput_raises_name_error (rows : List CheckpointRow) (cfg : SaverConfig)
    (cp : CheckpointData) (md : String)
    (hook : Option (List Message → List Message)) :
    aput rows cfg cp md = Except.error (PyErr.nameError "asyncio")
    ∧ (put rows cfg cp md).1.filter (rowKeyIs cfg.threadId cp.id)
        = [{ threadId := cfg.threadId, threadTs := cp.id, parentTs := cfg.threadTs,
             checkpoint := cp, metadata := md }]
    ∧ agetTuple hook rows cfg = Except.ok (getTuple hook rows cfg) :=
  ⟨rfl,
    filter_insertOrReplace
      { threadId := cfg.threadId, threadTs := cp.id, parentTs := cfg.threadTs,
        checkpoint := cp, metadata := md } rows,
    rfl⟩

/-! ## Claim C8 — dispatcher error-notice best effort -/

/-- Claim C8, counterexample: when the agent raises and the error-notice
send itself fails, the failure propagates out of `handle_event_trigger`
instead of being swallowed — the notice send has no surrounding
`try/except`. -/
theorem c8_counterexample_secondary_failure_propagates :
    handleEventTrigger "chan" (some "123.45") none
        (Except.error "boom") (Except.error ())
      = Except.error () := by
  rfl

/-- Claim C8 (amended): on an agent exception the dispatcher sends a
user-visible error message to the UI anchor (`update_message` on the
triggering message's `ts` when present, else `send_message` into the
thread); but a secondary failure raised while sending that message is
*not* caught and propagates out of the dispatcher. -/
theorem c8_error_notice_unguarded (channel : String)
    (msgTs threadTs : Option String) (e : String) :
    (handleEventTrigger channel msgTs threadTs (Except.error e) (Except.ok ())
       = Except.ok ([SlackCall.setStatus channel (threadTs.getD (msgTs.getD ""))] ++
           [match msgTs with
            | some ts => SlackCall.updateMsg channel ts (dispatcherErrorText e)
            | none => SlackCall.sendMsg channel (dispatcherErrorText e) threadTs]))
    ∧ handleEventTrigger channel msgTs threadTs (Except.error e) (Except.error ())
        = Except.error () := by
  constructor
  · rfl
  · rfl

end EclipseBot
